import Mathlib

/-!
Shallow embedding of the Rust crate `xtstate` (file `src/lib.rs`).

The crate's state machine `XTState` holds a map from string identifiers to
boolean slot values, a timestamped history of updates, a setup flag and an
activation flag.  We embed:

* the `HashMap<String, bool>` of slots as an association list
  `List (String × Bool)` with insert-or-overwrite and lookup operations
  mirroring `HashMap::insert`, `HashMap::contains_key`, `HashMap::get_mut`;
* Rust panics as error values: each mutating operation returns the state the
  instance holds at the moment the call ends (for a panic, the state at the
  moment of the panic, since a panic through `&mut self` leaves prior
  mutations in place) together with `Option XTError` (`none` = normal return);
* the wall clock (`chrono::Utc::now().timestamp_millis()`) as an explicit
  `epoch : Int` argument to `update_callback`;
* the `HashSet<String>` argument of `setup_slots` as a `List String`
  (claims about it carry a `Nodup` hypothesis where set-ness matters;
  iteration order of the `for` loop is the list order).
-/

/-- The panic conditions of the Rust source, as an error type: the
"already set up", "not set up", "identifier not defined in the slots",
"no slots are defined" and "identifier not found in slots" panics. -/
inductive XTError where
  | AlreadySetup
  | NotSetup
  | UnknownIdentifier
  | NoSlotsDefined
  | SlotNotFound
deriving DecidableEq

/-- The slot table: `HashMap<Identifier, bool>` as an association list. -/
abbrev Slots := List (String × Bool)

/-- `HashMap::contains_key`. -/
def containsKey (m : Slots) (k : String) : Bool :=
  m.any (fun p => p.1 == k)

/-- `HashMap::get`: the value stored for key `k`, if any. -/
def getSlot (m : Slots) (k : String) : Option Bool :=
  (m.find? (fun p => p.1 == k)).map (fun p => p.2)

/-- The write through `HashMap::get_mut`: overwrite the value stored at an
existing key `k` (keys with a different name are untouched). -/
def setSlot (m : Slots) (k : String) (v : Bool) : Slots :=
  m.map (fun p => if p.1 == k then (k, v) else p)

/-- `HashMap::insert`: overwrite the value if the key exists, otherwise add
the binding. -/
def insertSlot (m : Slots) (k : String) (v : Bool) : Slots :=
  if containsKey m k then setSlot m k v else m ++ [(k, v)]

/-- The struct `XTState` of the source: slot table, history of
`(identifier, value, timestamp_millis)` entries, setup flag, activation
flag. -/
structure XTState where
  slots : Slots
  history : List (String × Bool × Int)
  is_setup : Bool
  activated : Bool
deriving DecidableEq

/-- `XTState::new`. -/
def XTState.new : XTState :=
  { slots := [], history := [], is_setup := false, activated := false }

/-- `XTState::setup_slots`.  Returns the state at the end of the call and
`some error` when the call panics ("already set up"). -/
def setup_slots (s : XTState) (slots : List String) (force : Bool) :
    XTState × Option XTError :=
  if !force && s.is_setup then
    (s, some .AlreadySetup)
  else
    let s1 :=
      if force && s.is_setup then
        { s with is_setup := false, activated := false, history := [], slots := [] }
      else s
    let s2 := { s1 with slots := slots.foldl (fun m slot => insertSlot m slot false) s1.slots }
    ({ s2 with is_setup := true }, none)

/-- `XTState::can_activate` (private helper): panics when not set up or when
the slot table is empty, otherwise the AND over all slot values. -/
def can_activate (s : XTState) : Except XTError Bool :=
  if !s.is_setup then .error .NotSetup
  else if s.slots.isEmpty then .error .NoSlotsDefined
  else .ok (s.slots.all (fun p => p.2))

/-- `XTState::update_callback`.  Returns the state at the end of the call
(for a panic: the state at the moment of the panic, mutations made before
the panic included) and `some error` when the call panics. -/
def update_callback (s : XTState) (identifier : String) (value : Bool)
    (epoch : Int) : XTState × Option XTError :=
  if !s.is_setup then (s, some .NotSetup)
  else if !(containsKey s.slots identifier) then (s, some .UnknownIdentifier)
  else
    let s1 := { s with history := s.history ++ [(identifier, value, epoch)] }
    match getSlot s1.slots identifier with
    | some _ =>
      let s2 := { s1 with slots := setSlot s1.slots identifier value }
      match can_activate s2 with
      | .ok b => ({ s2 with activated := b }, none)
      | .error e => (s2, some e)
    | none => (s1, some .SlotNotFound)

/-- A call of the public mutating API, with the wall-clock reading of an
update call made explicit. -/
inductive Op where
  | setup (slots : List String) (force : Bool)
  | update (identifier : String) (value : Bool) (epoch : Int)

/-- Run one public call. -/
def runOp (s : XTState) : Op → XTState × Option XTError
  | .setup slots force => setup_slots s slots force
  | .update id v t => update_callback s id v t

/-- Run a sequence of public calls, keeping the state each call ends with
(a panicking call contributes the state at the moment of its panic). -/
def runOps (s : XTState) : List Op → XTState
  | [] => s
  | op :: rest => runOps (runOp s op).1 rest

/-- Whether a call is an update call. -/
def Op.isUpdate : Op → Bool
  | .setup _ _ => false
  | .update _ _ _ => true

/-- The number of update calls of the sequence that return normally. -/
def countSuccUpdates (s : XTState) : List Op → Nat
  | [] => 0
  | op :: rest =>
    (if op.isUpdate && (runOp s op).2.isNone then 1 else 0) +
      countSuccUpdates (runOp s op).1 rest

/-- Run a sequence of update calls that all carry the value `true`,
stopping at the first panic. -/
def runUpdatesTrue (s : XTState) : List (String × Int) → XTState × Option XTError
  | [] => (s, none)
  | (id, t) :: rest =>
    match update_callback s id true t with
    | (s', none) => runUpdatesTrue s' rest
    | (s', some e) => (s', some e)

/-- The states reachable from `XTState::new` through normally returning
public calls.  (A panicking call leaves the state unchanged — proved below —
so adding panicking steps would not enlarge the set.) -/
inductive Reachable : XTState → Prop where
  | init : Reachable XTState.new
  | step (s : XTState) (op : Op) (s' : XTState) :
      Reachable s → runOp s op = (s', none) → Reachable s'

/-! Basic lemmas about the slot-table operations. -/

lemma getSlot_eq_some_of_containsKey {m : Slots} {k : String}
    (h : containsKey m k = true) : ∃ v, getSlot m k = some v := by
  induction m with
  | nil => simp [containsKey] at h
  | cons p rest ih =>
    by_cases hp : (p.1 == k) = true
    · exact ⟨p.2, by simp [getSlot, List.find?_cons, hp]⟩
    · simp only [containsKey, List.any_cons, hp, Bool.false_or] at h
      obtain ⟨v, hv⟩ := ih h
      refine ⟨v, ?_⟩
      simpa [getSlot, List.find?_cons, hp] using hv

lemma isEmpty_eq_false_of_containsKey {m : Slots} {k : String}
    (h : containsKey m k = true) : m.isEmpty = false := by
  cases m with
  | nil => simp [containsKey] at h
  | cons p rest => rfl

lemma isEmpty_setSlot (m : Slots) (k : String) (v : Bool) :
    (setSlot m k v).isEmpty = m.isEmpty := by
  cases m <;> rfl

lemma containsKey_setSlot (m : Slots) (k : String) (v : Bool) (k' : String) :
    containsKey (setSlot m k v) k' = containsKey m k' := by
  induction m with
  | nil => rfl
  | cons p rest ih =>
    by_cases hp : p.1 = k
    · simp only [setSlot, containsKey, List.any_cons, List.map_cons, hp,
        beq_self_eq_true, if_pos] at ih ⊢
      rw [ih]
    · simp only [setSlot, containsKey, List.any_cons, List.map_cons,
        beq_iff_eq, hp, if_false, ite_false] at ih ⊢
      rw [ih]

/-! Closed forms of the two mutating operations. -/

lemma update_callback_eq (s : XTState) (id : String) (v : Bool) (t : Int) :
    update_callback s id v t =
      if s.is_setup = false then (s, some .NotSetup)
      else if containsKey s.slots id = false then (s, some .UnknownIdentifier)
      else ({ slots := setSlot s.slots id v,
              history := s.history ++ [(id, v, t)],
              is_setup := true,
              activated := (setSlot s.slots id v).all (fun p => p.2) }, none) := by
  cases hs : s.is_setup with
  | false => simp [update_callback, hs]
  | true =>
    cases hc : containsKey s.slots id with
    | false => simp [update_callback, hs, hc]
    | true =>
      obtain ⟨v0, hv0⟩ := getSlot_eq_some_of_containsKey hc
      have hne : s.slots.isEmpty = false := isEmpty_eq_false_of_containsKey hc
      simp [update_callback, hs, hc, hv0, can_activate, isEmpty_setSlot, hne]

lemma setup_slots_eq (s : XTState) (sl : List String) (f : Bool) :
    setup_slots s sl f =
      if s.is_setup = true ∧ f = false then (s, some .AlreadySetup)
      else if s.is_setup = true ∧ f = true then
        ({ slots := sl.foldl (fun m k => insertSlot m k false) [],
           history := [], is_setup := true, activated := false }, none)
      else
        ({ slots := sl.foldl (fun m k => insertSlot m k false) s.slots,
           history := s.history, is_setup := true, activated := s.activated }, none) := by
  cases hs : s.is_setup <;> cases f <;> simp [setup_slots, hs]

/-! The slot table built by setup: every identifier of the (duplicate-free)
input list bound to false. -/

lemma insertSlot_of_not_containsKey {m : Slots} {k : String}
    (h : containsKey m k = false) (v : Bool) :
    insertSlot m k v = m ++ [(k, v)] := by
  simp [insertSlot, h]

lemma containsKey_append (m m' : Slots) (k : String) :
    containsKey (m ++ m') k = (containsKey m k || containsKey m' k) := by
  simp [containsKey, List.any_append]

lemma foldl_insertSlot_fresh :
    ∀ (sl : List String) (m : Slots), sl.Nodup →
      (∀ k ∈ sl, containsKey m k = false) →
      sl.foldl (fun m k => insertSlot m k false) m =
        m ++ sl.map (fun k => (k, false)) := by
  intro sl
  induction sl with
  | nil => intro m _ _; simp
  | cons hd tl ih =>
    intro m hnd hfresh
    have hh : containsKey m hd = false := hfresh hd (by simp)
    rw [List.foldl_cons, insertSlot_of_not_containsKey hh]
    rw [ih (m ++ [(hd, false)]) (List.nodup_cons.mp hnd).2 ?fresh]
    · simp
    case fresh =>
      intro k hk
      rw [containsKey_append]
      have h1 : containsKey m k = false := hfresh k (List.mem_cons_of_mem _ hk)
      have h2 : hd ≠ k := by
        rintro rfl
        exact (List.nodup_cons.mp hnd).1 hk
      have h3 : (hd == k) = false := beq_eq_false_iff_ne.mpr h2
      simp only [h1, Bool.false_or, containsKey, List.any_cons, List.any_nil,
        Bool.or_false, h3]
      exact h1

lemma setup_slots_new (S : List String) (hnd : S.Nodup) :
    setup_slots XTState.new S false =
      ({ slots := S.map (fun k => (k, false)), history := [],
         is_setup := true, activated := false }, none) := by
  rw [setup_slots_eq]
  simp only [XTState.new]
  rw [foldl_insertSlot_fresh S [] hnd (fun k _ => rfl)]
  simp

/-! Slot tables that are the graph of a function on a list of keys. -/

lemma containsKey_map_graph (S : List String) (g : String → Bool) (k : String)
    (hk : k ∈ S) : containsKey (S.map (fun x => (x, g x))) k = true := by
  rw [containsKey, List.any_eq_true]
  exact ⟨(k, g k), List.mem_map_of_mem _ hk, by simp⟩

lemma setSlot_map_graph (S : List String) (g : String → Bool) (id : String)
    (v : Bool) :
    setSlot (S.map (fun k => (k, g k))) id v =
      S.map (fun k => (k, if k == id then v else g k)) := by
  induction S with
  | nil => rfl
  | cons hd tl ih =>
    simp only [setSlot, List.map_cons] at ih ⊢
    rw [ih]
    congr 1
    by_cases hh : (hd == id) = true
    · have heq : hd = id := eq_of_beq hh
      subst heq
      simp
    · simp [hh]

lemma all_map_graph (S : List String) (g : String → Bool) :
    (S.map (fun k => (k, g k))).all (fun p => p.2) = S.all g := by
  induction S with
  | nil => rfl
  | cons hd tl ih =>
    simp only [List.map_cons, List.all_cons, ih]

lemma runUpdatesTrue_cons_ok {s s' : XTState} {id : String} {t : Int}
    {rest : List (String × Int)}
    (h : update_callback s id true t = (s', none)) :
    runUpdatesTrue s ((id, t) :: rest) = runUpdatesTrue s' rest := by
  simp only [runUpdatesTrue, h]

lemma update_callback_graph (S : List String) (g : String → Bool)
    (hist : List (String × Bool × Int)) (act : Bool) (id : String) (t : Int)
    (hid : id ∈ S) :
    update_callback ⟨S.map (fun k => (k, g k)), hist, true, act⟩ id true t =
      (⟨S.map (fun k => (k, g k || (id == k))), hist ++ [(id, true, t)], true,
        S.all (fun k => g k || (id == k))⟩, none) := by
  have hcont := containsKey_map_graph S g id hid
  have hconv : (fun k => ((k : String), if k == id then true else g k)) =
      (fun k => (k, g k || (id == k))) := by
    funext k
    by_cases hk : k = id
    · subst hk; simp
    · have h1 : (k == id) = false := beq_eq_false_iff_ne.mpr hk
      have h2 : (id == k) = false := beq_eq_false_iff_ne.mpr (Ne.symm hk)
      simp [h1, h2]
  rw [update_callback_eq]
  rw [if_neg (by simp), if_neg (by simp [hcont])]
  show (XTState.mk (setSlot (S.map (fun k => (k, g k))) id true)
      (hist ++ [(id, true, t)]) true
      ((setSlot (S.map (fun k => (k, g k))) id true).all (fun p => p.2)), none) = _
  rw [setSlot_map_graph, hconv, all_map_graph]

lemma if_isEmpty_all (S : List String) (g : String → Bool)
    (rest : List (String × Int)) :
    (if rest.isEmpty then S.all g
     else S.all (fun k => g k || rest.any (fun u => u.1 == k))) =
      S.all (fun k => g k || rest.any (fun u => u.1 == k)) := by
  cases rest with
  | nil => simp
  | cons r rs => rfl

lemma runUpdatesTrue_graph (S : List String) :
    ∀ (us : List (String × Int)) (g : String → Bool)
      (hist : List (String × Bool × Int)) (act : Bool),
      (∀ u ∈ us, u.1 ∈ S) →
      runUpdatesTrue ⟨S.map (fun k => (k, g k)), hist, true, act⟩ us =
        (⟨S.map (fun k => (k, g k || us.any (fun u => u.1 == k))),
          hist ++ us.map (fun u => (u.1, true, u.2)),
          true,
          if us.isEmpty then act
          else S.all (fun k => g k || us.any (fun u => u.1 == k))⟩, none) := by
  intro us
  induction us with
  | nil =>
    intro g hist act _
    simp [runUpdatesTrue]
  | cons u rest ih =>
    intro g hist act hmem
    obtain ⟨id, t⟩ := u
    have hid : id ∈ S := hmem (id, t) (List.mem_cons_self _ _)
    rw [runUpdatesTrue_cons_ok (update_callback_graph S g hist act id t hid)]
    rw [ih (fun k => g k || (id == k)) (hist ++ [(id, true, t)])
        (S.all (fun k => g k || (id == k)))
        (fun u hu => hmem u (List.mem_cons_of_mem _ hu))]
    simp [if_isEmpty_all, Bool.or_assoc, List.append_assoc]
    intro h
    subst h
    simp

/-! Error and success characterizations of the two operations. -/

lemma setup_slots_err (s : XTState) (sl : List String) (f : Bool) (e : XTError)
    (h : (setup_slots s sl f).2 = some e) :
    (setup_slots s sl f).1 = s ∧ e = XTError.AlreadySetup ∧
      s.is_setup = true ∧ f = false := by
  rw [setup_slots_eq] at h ⊢
  by_cases h1 : s.is_setup = true ∧ f = false
  · rw [if_pos h1] at h ⊢
    exact ⟨rfl, (Option.some.inj h).symm, h1.1, h1.2⟩
  · rw [if_neg h1] at h
    by_cases h2 : s.is_setup = true ∧ f = true
    · rw [if_pos h2] at h
      simp at h
    · rw [if_neg h2] at h
      simp at h

lemma update_callback_err (s : XTState) (id : String) (v : Bool) (t : Int)
    (e : XTError) (h : (update_callback s id v t).2 = some e) :
    (update_callback s id v t).1 = s ∧
      (e = XTError.NotSetup ∨ e = XTError.UnknownIdentifier) := by
  rw [update_callback_eq] at h ⊢
  by_cases h1 : s.is_setup = false
  · rw [if_pos h1] at h ⊢
    exact ⟨rfl, Or.inl (Option.some.inj h).symm⟩
  · rw [if_neg h1] at h ⊢
    by_cases h2 : containsKey s.slots id = false
    · rw [if_pos h2] at h ⊢
      exact ⟨rfl, Or.inr (Option.some.inj h).symm⟩
    · rw [if_neg h2] at h
      simp at h

lemma update_callback_ok_iff (s : XTState) (id : String) (v : Bool) (t : Int) :
    (update_callback s id v t).2 = none ↔
      (s.is_setup = true ∧ containsKey s.slots id = true) := by
  cases h1 : s.is_setup with
  | false => simp [update_callback_eq, h1]
  | true =>
    cases h2 : containsKey s.slots id with
    | false => simp [update_callback_eq, h1, h2]
    | true => simp [update_callback_eq, h1, h2]

lemma update_callback_ok (s : XTState) (id : String) (v : Bool) (t : Int)
    (h1 : s.is_setup = true) (h2 : containsKey s.slots id = true) :
    update_callback s id v t =
      ({ slots := setSlot s.slots id v, history := s.history ++ [(id, v, t)],
         is_setup := true,
         activated := (setSlot s.slots id v).all (fun p => p.2) }, none) := by
  rw [update_callback_eq]
  simp [h1, h2]

/-! Reachability: a normally returning call always leaves the setup flag
true, so a reachable state that is not set up is the fresh state. -/

lemma runOp_ok_is_setup {s s' : XTState} {op : Op}
    (h : runOp s op = (s', none)) : s'.is_setup = true := by
  cases op with
  | setup sl f =>
    simp only [runOp] at h
    rw [setup_slots_eq] at h
    by_cases h1 : s.is_setup = true ∧ f = false
    · rw [if_pos h1] at h
      simp at h
    · rw [if_neg h1] at h
      by_cases h2 : s.is_setup = true ∧ f = true
      · rw [if_pos h2] at h
        injection h with ha hb
        rw [← ha]
      · rw [if_neg h2] at h
        injection h with ha hb
        rw [← ha]
  | update id v t =>
    simp only [runOp] at h
    rw [update_callback_eq] at h
    by_cases h1 : s.is_setup = false
    · rw [if_pos h1] at h
      simp at h
    · rw [if_neg h1] at h
      by_cases h2 : containsKey s.slots id = false
      · rw [if_pos h2] at h
        simp at h
      · rw [if_neg h2] at h
        injection h with ha hb
        rw [← ha]

lemma reachable_not_setup {s : XTState} (hr : Reachable s) :
    s.is_setup = false → s = XTState.new := by
  induction hr with
  | init => intro _; rfl
  | step s0 op s' h0 hstep ih =>
    intro hs
    have ht := runOp_ok_is_setup hstep
    rw [hs] at ht
    cases ht

lemma setup_ok_history {s : XTState} (hr : Reachable s) (sl : List String)
    (f : Bool) (h : (setup_slots s sl f).2 = none) :
    (setup_slots s sl f).1.history = [] := by
  rw [setup_slots_eq] at h ⊢
  by_cases h1 : s.is_setup = true ∧ f = false
  · rw [if_pos h1] at h
    simp at h
  · rw [if_neg h1] at h ⊢
    by_cases h2 : s.is_setup = true ∧ f = true
    · rw [if_pos h2]
    · rw [if_neg h2]
      have hs : s.is_setup = false := by
        cases hse : s.is_setup
        · rfl
        · cases hf : f
          · exact absurd ⟨hse, hf⟩ h1
          · exact absurd ⟨hse, hf⟩ h2
      have hnew := reachable_not_setup hr hs
      simp [hnew, XTState.new]

lemma runOps_updates_history :
    ∀ (ops : List Op) (s : XTState), (∀ op ∈ ops, op.isUpdate = true) →
      (runOps s ops).history.length =
        s.history.length + countSuccUpdates s ops := by
  intro ops
  induction ops with
  | nil =>
    intro s _
    simp [runOps, countSuccUpdates]
  | cons op rest ih =>
    intro s hall
    have hop : op.isUpdate = true := hall op (by simp)
    cases op with
    | setup _ _ => simp [Op.isUpdate] at hop
    | update id v t =>
      have hrest : ∀ o ∈ rest, o.isUpdate = true :=
        fun o ho => hall o (List.mem_cons_of_mem _ ho)
      simp only [runOps, countSuccUpdates, runOp, Op.isUpdate, Bool.true_and]
      rw [ih _ hrest]
      cases he : (update_callback s id v t).2 with
      | none =>
        have hiff := (update_callback_ok_iff s id v t).mp he
        rw [update_callback_ok s id v t hiff.1 hiff.2]
        simp only [Option.isNone_none, if_pos]
        simp [List.length_append]
        omega
      | some e =>
        rw [(update_callback_err s id v t e he).1]
        simp

lemma getSlot_cons (p : String × Bool) (rest : Slots) (k : String) :
    getSlot (p :: rest) k =
      if (p.1 == k) = true then some p.2 else getSlot rest k := by
  by_cases hp : (p.1 == k) = true
  · simp [getSlot, List.find?_cons, hp]
  · simp [getSlot, List.find?_cons, hp]

lemma setSlot_cons (p : String × Bool) (rest : Slots) (k : String) (v : Bool) :
    setSlot (p :: rest) k v =
      (if (p.1 == k) = true then (k, v) else p) :: setSlot rest k v := rfl

lemma getSlot_setSlot_self {k : String} (v : Bool) :
    ∀ m : Slots, containsKey m k = true → getSlot (setSlot m k v) k = some v := by
  intro m
  induction m with
  | nil => intro h; simp [containsKey] at h
  | cons p rest ih =>
    intro h
    rw [setSlot_cons]
    by_cases hp : (p.1 == k) = true
    · rw [if_pos hp, getSlot_cons]
      simp
    · rw [if_neg hp, getSlot_cons, if_neg hp]
      simp only [containsKey, List.any_cons, hp, Bool.false_or] at h
      exact ih h

lemma setSlot_setSlot (m : Slots) (k : String) (v : Bool) :
    setSlot (setSlot m k v) k v = setSlot m k v := by
  induction m with
  | nil => rfl
  | cons p rest ih =>
    rw [setSlot_cons, setSlot_cons, ih]
    by_cases hp : (p.1 == k) = true
    · simp [hp]
    · simp [hp]

/-! The claims. -/

/-- C1: after a normally returning update the slot table is non-empty and
the activation flag equals the AND over all slot values; and after a
non-forced setup of a duplicate-free non-empty identifier list on a fresh
instance, any sequence of updates to true over identifiers of that list
returns normally, and the final activation flag is true exactly when every
identifier of the list has been updated — in particular it turns true at
the update that sets the last remaining false slot and stays true from
then on. -/
theorem activated_iff_all_slots_true :
    (∀ (s : XTState) (id : String) (v : Bool) (t : Int),
        (update_callback s id v t).2 = none →
        (update_callback s id v t).1.slots.isEmpty = false ∧
        (update_callback s id v t).1.activated =
          (update_callback s id v t).1.slots.all (fun p => p.2)) ∧
    (∀ (S : List String) (us : List (String × Int)),
        S ≠ [] → S.Nodup → (∀ u ∈ us, u.1 ∈ S) →
        (runUpdatesTrue (setup_slots XTState.new S false).1 us).2 = none ∧
        (runUpdatesTrue (setup_slots XTState.new S false).1 us).1.activated =
          S.all (fun id => us.any (fun u => u.1 == id))) := by
  constructor
  · intro s id v t h
    have hc := (update_callback_ok_iff s id v t).mp h
    have h1 := update_callback_ok s id v t hc.1 hc.2
    refine ⟨?_, ?_⟩
    · rw [h1]
      show (setSlot s.slots id v).isEmpty = false
      rw [isEmpty_setSlot]
      exact isEmpty_eq_false_of_containsKey hc.2
    · rw [h1]
  · intro S us hne hnd hmem
    rw [setup_slots_new S hnd]
    have hg := runUpdatesTrue_graph S us (fun _ => false) [] false hmem
    rw [show (fun k => ((k : String), false)) =
        (fun k => (k, (fun _ => false) k)) from rfl]
    rw [hg]
    refine ⟨rfl, ?_⟩
    show (if us.isEmpty then false
      else S.all (fun k => (fun _ => false) k || us.any (fun u => u.1 == k))) = _
    cases hus : us with
    | nil =>
      cases S with
      | nil => exact absurd rfl hne
      | cons hd tl => simp
    | cons u rest => simp

/-- C1 witness: with slots a and b, updating a then b to true activates the
instance, and a single successful update yields a non-empty table. -/
theorem activated_iff_all_slots_true_witness :
    (update_callback ⟨[("a", false)], [], true, false⟩ "a" true 0).1.slots.isEmpty = false ∧
    (runUpdatesTrue (setup_slots XTState.new ["a", "b"] false).1
        [("a", 0), ("b", 1)]).1.activated =
      ["a", "b"].all (fun id => [("a", (0 : Int)), ("b", 1)].any (fun u => u.1 == id)) :=
  ⟨(activated_iff_all_slots_true.1 ⟨[("a", false)], [], true, false⟩ "a" true 0
      (by decide)).1,
   (activated_iff_all_slots_true.2 ["a", "b"] [("a", 0), ("b", 1)]
      (by decide) (by decide) (by decide)).2⟩

/-- C2 counterexample: setup with the empty set and force = false returns
normally, and the very first update then fails — but with the
unknown-identifier error, not the no-slots-defined error the claim
names. -/
theorem empty_setup_update_not_NoSlotsDefined :
    (setup_slots XTState.new [] false).2 = none ∧
    (update_callback (setup_slots XTState.new [] false).1 "slot1" true 0).2 =
      some XTError.UnknownIdentifier ∧
    (update_callback (setup_slots XTState.new [] false).1 "slot1" true 0).2 ≠
      some XTError.NoSlotsDefined := by
  refine ⟨rfl, rfl, ?_⟩
  decide

/-- C2 (amended): after setup_slots with the empty set and force = false
(which succeeds), every subsequent update_callback call, for any identifier
and any value, fails on the very first attempt — with the UnknownIdentifier
error, since the empty slot table contains no identifier; the
NoSlotsDefined check is never reached. -/
theorem empty_setup_update_fails_UnknownIdentifier (id : String) (v : Bool)
    (t : Int) :
    (setup_slots XTState.new [] false).2 = none ∧
    (update_callback (setup_slots XTState.new [] false).1 id v t).2 =
      some XTError.UnknownIdentifier := by
  refine ⟨rfl, ?_⟩
  have h1 : ((setup_slots XTState.new [] false).1).is_setup = true := rfl
  have h2 : containsKey ((setup_slots XTState.new [] false).1).slots id = false := rfl
  rw [update_callback_eq, if_neg (by simp [h1]), if_pos h2]

/-- C3: a failing call is atomic — whatever error setup_slots or
update_callback signals, the state at the moment of the panic is exactly
the state before the call; in particular no history entry is appended and
no slot value changes on any failure path. -/
theorem failing_calls_leave_state_unchanged (s : XTState) (sl : List String)
    (f : Bool) (id : String) (v : Bool) (t : Int) (e e' : XTError) :
    ((setup_slots s sl f).2 = some e → (setup_slots s sl f).1 = s) ∧
    ((update_callback s id v t).2 = some e' → (update_callback s id v t).1 = s) :=
  ⟨fun h => (setup_slots_err s sl f e h).1,
   fun h => (update_callback_err s id v t e' h).1⟩

/-- C3 witness: a second non-forced setup leaves the set-up instance
unchanged, and an update on a fresh instance leaves it unchanged. -/
theorem failing_calls_leave_state_unchanged_witness :
    (setup_slots ⟨[("a", false)], [], true, false⟩ ["b"] false).1 =
      ⟨[("a", false)], [], true, false⟩ ∧
    (update_callback XTState.new "a" true 0).1 = XTState.new :=
  ⟨(failing_calls_leave_state_unchanged ⟨[("a", false)], [], true, false⟩
      ["b"] false "a" true 0 XTError.AlreadySetup XTError.NotSetup).1 rfl,
   (failing_calls_leave_state_unchanged XTState.new
      ["b"] false "a" true 0 XTError.AlreadySetup XTError.NotSetup).2 rfl⟩

/-- C4: a forced setup from any reachable state returns normally and fully
resets the instance: empty history, activation flag false, slot table
exactly the (duplicate-free) new identifiers each bound to false, setup
flag true. -/
theorem forced_setup_resets (s : XTState) (S2 : List String)
    (hr : Reachable s) (hnd : S2.Nodup) :
    (setup_slots s S2 true).2 = none ∧
    (setup_slots s S2 true).1 =
      { slots := S2.map (fun k => (k, false)), history := [],
        is_setup := true, activated := false } := by
  rw [setup_slots_eq]
  cases hs : s.is_setup with
  | true =>
    rw [if_neg (by simp), if_pos ⟨rfl, rfl⟩]
    refine ⟨rfl, ?_⟩
    show XTState.mk (S2.foldl (fun m k => insertSlot m k false) []) [] true false = _
    rw [foldl_insertSlot_fresh S2 [] hnd (fun k _ => rfl)]
    simp
  | false =>
    rw [if_neg (by simp [hs]), if_neg (by simp [hs])]
    refine ⟨rfl, ?_⟩
    have hnew := reachable_not_setup hr hs
    rw [hnew]
    show XTState.mk (S2.foldl (fun m k => insertSlot m k false) []) [] true false = _
    rw [foldl_insertSlot_fresh S2 [] hnd (fun k _ => rfl)]
    simp

/-- C4 witness: a forced setup on the fresh instance. -/
theorem forced_setup_resets_witness :
    (setup_slots XTState.new ["x"] true).2 = none ∧
    (setup_slots XTState.new ["x"] true).1 =
      { slots := [("x", false)], history := [], is_setup := true,
        activated := false } := by
  simpa using forced_setup_resets XTState.new ["x"] Reachable.init (by decide)

/-- C5: exact failure triggers — setup_slots signals AlreadySetup exactly
when the instance is set up and force is false; update_callback signals
NotSetup exactly when the instance is not set up, and UnknownIdentifier
exactly when it is set up but the identifier is not a key of the slot
table. -/
theorem failure_trigger_conditions (s : XTState) (sl : List String) (f : Bool)
    (id : String) (v : Bool) (t : Int) :
    ((setup_slots s sl f).2 = some XTError.AlreadySetup ↔
      (s.is_setup = true ∧ f = false)) ∧
    ((update_callback s id v t).2 = some XTError.NotSetup ↔
      s.is_setup = false) ∧
    ((update_callback s id v t).2 = some XTError.UnknownIdentifier ↔
      (s.is_setup = true ∧ containsKey s.slots id = false)) := by
  refine ⟨?_, ?_, ?_⟩
  · rw [setup_slots_eq]
    by_cases h1 : s.is_setup = true ∧ f = false
    · rw [if_pos h1]
      simp [h1]
    · rw [if_neg h1]
      by_cases h2 : s.is_setup = true ∧ f = true
      · rw [if_pos h2]
        simp [h1]
      · rw [if_neg h2]
        simp [h1]
  · cases h1 : s.is_setup with
    | false => simp [update_callback_eq, h1]
    | true =>
      cases h2 : containsKey s.slots id with
      | false => simp [update_callback_eq, h1, h2]
      | true => simp [update_callback_eq, h1, h2]
  · cases h1 : s.is_setup with
    | false => simp [update_callback_eq, h1]
    | true =>
      cases h2 : containsKey s.slots id with
      | false => simp [update_callback_eq, h1, h2]
      | true => simp [update_callback_eq, h1, h2]

/-- C5 witness: the double-setup scenario — after setting up slot a, a
second non-forced setup with slot b fails with AlreadySetup, slot a still
exists and slot b does not. -/
theorem failure_trigger_conditions_witness :
    (setup_slots (setup_slots XTState.new ["a"] false).1 ["b"] false).2 =
      some XTError.AlreadySetup ∧
    containsKey (setup_slots (setup_slots XTState.new ["a"] false).1
      ["b"] false).1.slots "a" = true ∧
    containsKey (setup_slots (setup_slots XTState.new ["a"] false).1
      ["b"] false).1.slots "b" = false :=
  ⟨(failure_trigger_conditions (setup_slots XTState.new ["a"] false).1
      ["b"] false "a" true 0).1.mpr ⟨rfl, rfl⟩,
   by decide, by decide⟩

/-- C6 counterexample: a forced re-setup clears the history, so after a
setup, one successful update, and a forced setup, the history length is 0
while one successful update call was made — the history length does not
equal the number of successful updates made so far. -/
theorem history_length_reset_counterexample :
    (runOps XTState.new
        [Op.setup ["a"] false, Op.update "a" true 0,
          Op.setup ["a"] true]).history.length = 0 ∧
    countSuccUpdates XTState.new
        [Op.setup ["a"] false, Op.update "a" true 0, Op.setup ["a"] true] = 1 ∧
    (runOps XTState.new
        [Op.setup ["a"] false, Op.update "a" true 0,
          Op.setup ["a"] true]).history.length ≠
      countSuccUpdates XTState.new
        [Op.setup ["a"] false, Op.update "a" true 0, Op.setup ["a"] true] := by
  refine ⟨by decide, by decide, by decide⟩

/-- C6 (amended): each successful update appends exactly one history entry,
failed updates append nothing, and setup_slots never appends — a successful
setup_slots leaves the history empty, clearing it on a forced re-setup — so
the history length equals the number of successful update calls made since
the most recent successful setup_slots call. -/
theorem history_length_counts_updates (s : XTState) (ops : List Op)
    (hr : Reachable s) (hup : ∀ op ∈ ops, op.isUpdate = true) :
    (∀ (sl : List String) (f : Bool), (setup_slots s sl f).2 = none →
        (setup_slots s sl f).1.history = []) ∧
    (runOps s ops).history.length = s.history.length + countSuccUpdates s ops :=
  ⟨fun sl f h => setup_ok_history hr sl f h, runOps_updates_history ops s hup⟩

/-- C6 witness: from the state set up with slot a, a successful update on a
and a failed update on z give history length 1, and a forced re-setup
leaves the history empty. -/
theorem history_length_counts_updates_witness :
    (setup_slots (setup_slots XTState.new ["a"] false).1 ["b"] true).1.history = [] ∧
    (runOps (setup_slots XTState.new ["a"] false).1
        [Op.update "a" true 0, Op.update "z" true 1]).history.length =
      (setup_slots XTState.new ["a"] false).1.history.length +
        countSuccUpdates (setup_slots XTState.new ["a"] false).1
          [Op.update "a" true 0, Op.update "z" true 1] := by
  have hreach : Reachable (setup_slots XTState.new ["a"] false).1 :=
    Reachable.step XTState.new (Op.setup ["a"] false)
      ((setup_slots XTState.new ["a"] false).1) Reachable.init (by decide)
  have h := history_length_counts_updates (setup_slots XTState.new ["a"] false).1
    [Op.update "a" true 0, Op.update "z" true 1] hreach (by decide)
  exact ⟨h.1 ["b"] true rfl, h.2⟩

/-- C7: a normally returning update overwrites the slot with the given
value regardless of the previous value and appends exactly one history
entry; repeating the same update with the same identifier and value
returns normally, leaves the slot table and the activation flag unchanged,
and only appends another history entry. -/
theorem update_overwrite_and_idempotent (s : XTState) (id : String) (v : Bool)
    (t t' : Int) (h : (update_callback s id v t).2 = none) :
    getSlot (update_callback s id v t).1.slots id = some v ∧
    (update_callback s id v t).1.history = s.history ++ [(id, v, t)] ∧
    (update_callback (update_callback s id v t).1 id v t').2 = none ∧
    (update_callback (update_callback s id v t).1 id v t').1.slots =
      (update_callback s id v t).1.slots ∧
    (update_callback (update_callback s id v t).1 id v t').1.activated =
      (update_callback s id v t).1.activated ∧
    (update_callback (update_callback s id v t).1 id v t').1.history =
      (update_callback s id v t).1.history ++ [(id, v, t')] := by
  have hc := (update_callback_ok_iff s id v t).mp h
  have h1 := update_callback_ok s id v t hc.1 hc.2
  have e1slots : (update_callback s id v t).1.slots = setSlot s.slots id v := by
    rw [h1]
  have e1hist : (update_callback s id v t).1.history = s.history ++ [(id, v, t)] := by
    rw [h1]
  have e1act : (update_callback s id v t).1.activated =
      (setSlot s.slots id v).all (fun p => p.2) := by
    rw [h1]
  have h2 := update_callback_ok ((update_callback s id v t).1) id v t'
    (by rw [h1]) (by rw [e1slots, containsKey_setSlot]; exact hc.2)
  have hok2 : (update_callback (update_callback s id v t).1 id v t').2 = none := by
    rw [h2]
  refine ⟨?_, e1hist, hok2, ?_, ?_, by rw [h2]⟩
  · rw [e1slots]
    exact getSlot_setSlot_self v s.slots hc.2
  · rw [h2]
    show setSlot ((update_callback s id v t).1.slots) id v =
      (update_callback s id v t).1.slots
    rw [e1slots]
    exact setSlot_setSlot s.slots id v
  · rw [h2]
    show (setSlot ((update_callback s id v t).1.slots) id v).all (fun p => p.2) =
      (update_callback s id v t).1.activated
    rw [e1slots, setSlot_setSlot, e1act]

/-- C7 witness: on the instance set up with slot a, updating a to true
twice keeps table and activation unchanged while the history grows. -/
theorem update_overwrite_and_idempotent_witness :
    getSlot (update_callback (setup_slots XTState.new ["a"] false).1
      "a" true 0).1.slots "a" = some true ∧
    (update_callback (update_callback (setup_slots XTState.new ["a"] false).1
        "a" true 0).1 "a" true 1).1.slots =
      (update_callback (setup_slots XTState.new ["a"] false).1 "a" true 0).1.slots ∧
    (update_callback (update_callback (setup_slots XTState.new ["a"] false).1
        "a" true 0).1 "a" true 1).1.activated =
      (update_callback (setup_slots XTState.new ["a"] false).1 "a" true 0).1.activated := by
  have h := update_overwrite_and_idempotent (setup_slots XTState.new ["a"] false).1
    "a" true 0 1 (by decide)
  exact ⟨h.1, h.2.2.2.1, h.2.2.2.2.1⟩

/-- C8: in every state reachable from new through the public API, if the
setup flag is false the instance carries no data — empty slot table, empty
history, activation flag false; consequently once any slot or history entry
exists, the setup flag is true. -/
theorem not_setup_carries_no_data (s : XTState) (hr : Reachable s)
    (hs : s.is_setup = false) :
    s.slots = [] ∧ s.history = [] ∧ s.activated = false := by
  rw [reachable_not_setup hr hs]
  exact ⟨rfl, rfl, rfl⟩

/-- C8 witness: the fresh instance. -/
theorem not_setup_carries_no_data_witness :
    XTState.new.slots = [] ∧ XTState.new.history = [] ∧
      XTState.new.activated = false :=
  not_setup_carries_no_data XTState.new Reachable.init rfl

/-- C9: update_callback can only fail with the not-set-up or
unknown-identifier errors; in particular the no-slots-defined branch of
can_activate is unreachable through update_callback, because every update
that reaches the activation recomputation passed the unknown-identifier
check, which forces a non-empty slot table. -/
theorem update_never_NoSlotsDefined (s : XTState) (id : String) (v : Bool)
    (t : Int) (e : XTError) (h : (update_callback s id v t).2 = some e) :
    (e = XTError.NotSetup ∨ e = XTError.UnknownIdentifier) ∧
      e ≠ XTError.NoSlotsDefined := by
  have h2 := (update_callback_err s id v t e h).2
  refine ⟨h2, ?_⟩
  rcases h2 with h2 | h2 <;> subst h2 <;> decide

/-- C9 witness: an update on the fresh instance fails with NotSetup, which
is one of the two permitted errors and is not NoSlotsDefined. -/
theorem update_never_NoSlotsDefined_witness :
    (XTError.NotSetup = XTError.NotSetup ∨
      XTError.NotSetup = XTError.UnknownIdentifier) ∧
      XTError.NotSetup ≠ XTError.NoSlotsDefined :=
  update_never_NoSlotsDefined XTState.new "a" true 0 XTError.NotSetup rfl

/-- C10: the fallback failure on the slot write (get_mut returning none
after contains_key succeeded on the same identifier) is unreachable —
update_callback never signals the slot-not-found error. -/
theorem update_never_SlotNotFound (s : XTState) (id : String) (v : Bool)
    (t : Int) : (update_callback s id v t).2 ≠ some XTError.SlotNotFound := by
  intro h
  rcases (update_callback_err s id v t _ h).2 with h2 | h2 <;> cases h2

/-- C10 witness: concrete instance of the statement. -/
theorem update_never_SlotNotFound_witness :
    (update_callback XTState.new "a" true 0).2 ≠ some XTError.SlotNotFound :=
  update_never_SlotNotFound XTState.new "a" true 0
